import Mathlib

/-!
Shallow embedding of the Grassroots example "long running service"
(src/src/long_running_service.c) together with proofs about its
asynchronous job lifecycle engine.

Modelling conventions:
  * C `time_t` timestamps and durations are modelled as `Int`; the current
    wall-clock time obtained by `time (NULL)` is passed explicitly as a
    `now : Int` argument to every function that reads the clock.
  * jansson `json_t` values are modelled by the inductive `JsonValue`;
    an object is an ordered association list of key/value pairs, and
    `json_object_get` returns the first binding of a key.
  * `AllocMemory` returns uninitialised memory.  A field of a freshly
    allocated structure that the C code never writes before use is modelled
    by an explicit `junk` parameter carrying the arbitrary allocation
    residue.  (The unused `tsj_process_id` slot, which no code in the
    module ever reads or writes, is omitted from the record.)
  * The cross-request JobsManager (an external collaborator) is modelled as
    an association list from job identifier to job; registration calls that
    may fail for external reasons are driven by a boolean oracle indexed by
    the job identifier.
  * `PrintErrors` logging is modelled by returning a list of message
    strings alongside the result where a claim mentions the log.
-/

namespace LongRunningService

/-- Operation statuses used by this module (the relevant subset of the
Grassroots `OperationStatus` enumeration). -/
inductive OperationStatus where
  | OS_ERROR
  | OS_IDLE
  | OS_PENDING
  | OS_STARTED
  | OS_SUCCEEDED
deriving DecidableEq, Repr

/-- Modelled from the spec: the integer encoding of a status used in the
persisted document form (external collaborator convention; any injective
encoding gives the same round-trip behaviour). -/
def statusToInt : OperationStatus → Int
  | .OS_ERROR => -1
  | .OS_IDLE => 0
  | .OS_PENDING => 1
  | .OS_STARTED => 2
  | .OS_SUCCEEDED => 5

/-- Modelled from the spec: partial inverse of `statusToInt`, used when
rehydrating the base job from a persisted document. -/
def statusFromInt : Int → Option OperationStatus
  | -1 => some .OS_ERROR
  | 0 => some .OS_IDLE
  | 1 => some .OS_PENDING
  | 2 => some .OS_STARTED
  | 5 => some .OS_SUCCEEDED
  | _ => none

/-- Model of jansson `json_t` values. -/
inductive JsonValue where
  | jNull
  | jBool (b : Bool)
  | jInt (n : Int)
  | jStr (s : String)
  | jArr (elements : List JsonValue)
  | jObj (fields : List (String × JsonValue))

/-- First binding of a key in an association list (jansson objects hold at
most one binding per key; serialisation below never duplicates keys). -/
def lookupField : List (String × JsonValue) → String → Option JsonValue
  | [], _ => none
  | (k, v) :: rest, key => if k = key then some v else lookupField rest key

/-- Model of `json_object_get` on an object value. -/
def jsonObjectGet : JsonValue → String → Option JsonValue
  | .jObj fields, key => lookupField fields key
  | _, _ => none

/-- Replace the binding of a key, or append it if absent (model of
`json_object_set_new` on an object; on success jansson replaces an existing
binding or inserts a new one). -/
def setField : List (String × JsonValue) → String → JsonValue → List (String × JsonValue)
  | [], key, v => [(key, v)]
  | (k, w) :: rest, key, v =>
      if k = key then (k, v) :: rest else (k, w) :: setField rest key v

/-- Model of `json_object_set_new` (allocation failures of the pure jansson
layer are not modelled; objects are the only values the module mutates). -/
def jsonObjectSet : JsonValue → String → JsonValue → JsonValue
  | .jObj fields, key, v => .jObj (setField fields key v)
  | other, _, _ => other

/-- Model of the Grassroots helper `GetJSONLong`: the key must be bound to a
JSON integer. -/
def GetJSONLong (json : JsonValue) (key : String) : Option Int :=
  match jsonObjectGet json key with
  | some (.jInt n) => some n
  | _ => none

/-- Model of the Grassroots helper `GetJSONBoolean`: the key must be bound
to a JSON boolean. -/
def GetJSONBoolean (json : JsonValue) (key : String) : Option Bool :=
  match jsonObjectGet json key with
  | some (.jBool b) => some b
  | _ => none

/-- The `TimeInterval` structure of the C source: start and end timestamps
plus the duration used to stamp them. -/
structure TimeInterval where
  ti_start : Int
  ti_end : Int
  ti_duration : Int
deriving DecidableEq, Repr

/-- Modelled from the spec: the base `ServiceJob` of the external service
framework — identifier, name, description, type tag, status and result
payload (the owning-service reference carries no data relevant here). -/
structure ServiceJob where
  sj_id : Nat
  sj_name : String
  sj_description : String
  sj_type : String
  sj_status : OperationStatus
  sj_result : JsonValue

/-- The `TimedServiceJob` structure of the C source: the base job plus the
owned `TimeInterval` and the added-to-registry flag.  The C struct also
declares an `int32 tsj_process_id` slot that no code in the module ever
reads or writes; it is omitted here. -/
structure TimedServiceJob where
  tsj_job : ServiceJob
  tsj_interval : TimeInterval
  tsj_added_flag : Bool

/-- The persistence keys of the C source. -/
def LRS_SERVICE_JOB_TYPE_S : String := "long running service job"

def LRS_START_S : String := "start"

def LRS_END_S : String := "end"

def LRS_ADDED_FLAG_S : String := "added_to_job_manager"

/-- Modelled from the spec: the base-class setter `SetServiceJobStatus`,
which writes the given status onto the job's status field. -/
def SetServiceJobStatus (job : TimedServiceJob) (status : OperationStatus) : TimedServiceJob :=
  { job with tsj_job := { job.tsj_job with sj_status := status } }

/-- Modelled from the spec: the base-class getter `GetServiceJobStatus`,
which reads the cached status field. -/
def GetServiceJobStatus (job : ServiceJob) : OperationStatus :=
  job.sj_status

/-- Model of `StartTimedServiceJob`: stamp the interval (`start = now`,
`end = start + duration`) and set the status to `OS_STARTED`. -/
def StartTimedServiceJob (now : Int) (job : TimedServiceJob) : TimedServiceJob :=
  let ti := job.tsj_interval
  let ti := { ti with ti_start := now, ti_end := now + ti.ti_duration }
  SetServiceJobStatus { job with tsj_interval := ti } .OS_STARTED

/-- Model of `GetTimedServiceJobStatus`: derive the status from the interval
and the current time, write it onto the job's status field, and return both
the status and the updated job. -/
def GetTimedServiceJobStatus (now : Int) (job : TimedServiceJob) :
    OperationStatus × TimedServiceJob :=
  let ti := job.tsj_interval
  let status :=
    if ti.ti_start ≠ ti.ti_end then
      if now ≥ ti.ti_start then
        if now ≤ ti.ti_end then OperationStatus.OS_STARTED
        else OperationStatus.OS_SUCCEEDED
      else OperationStatus.OS_ERROR
    else OperationStatus.OS_IDLE
  (status, SetServiceJobStatus job status)

/-- Modelled from the spec: the base-class initialiser `InitServiceJob` —
fresh identifier (supplied by the caller's identifier generator), the given
name, description and type tag, initial status `IDLE`, empty result. -/
def InitServiceJob (id : Nat) (name description type_tag : String) : ServiceJob :=
  { sj_id := id
    sj_name := name
    sj_description := description
    sj_type := type_tag
    sj_status := .OS_IDLE
    sj_result := .jNull }

/-- Model of `AllocateTimedServiceJob`: fresh interval with
`start = end = 0` and the caller-supplied duration, added-flag `false`,
base job initialised with the type tag `LRS_SERVICE_JOB_TYPE_S`. -/
def AllocateTimedServiceJob (id : Nat) (job_name_s job_description_s : String)
    (duration : Int) : TimedServiceJob :=
  { tsj_job := InitServiceJob id job_name_s job_description_s LRS_SERVICE_JOB_TYPE_S
    tsj_interval := { ti_start := 0, ti_end := 0, ti_duration := duration }
    tsj_added_flag := false }

/-- Model of the Grassroots helper reading a string field of a JSON object
(external collaborator). -/
def GetJSONString (json : JsonValue) (key : String) : Option String :=
  match jsonObjectGet json key with
  | some (.jStr s) => some s
  | _ => none

/-- The cross-request JobsManager (external collaborator): an associative
store from job identifier to job instance. -/
abbrev JobsManager := List (Nat × TimedServiceJob)

/-- Modelled from the spec: registry lookup by identifier. -/
def GetServiceJobFromJobsManager : JobsManager → Nat → Option TimedServiceJob
  | [], _ => none
  | (k, job) :: rest, id => if k = id then some job else GetServiceJobFromJobsManager rest id

/-- Modelled from the spec: successful registration of a job under its
identifier (failure of the external call is driven by an oracle at the call
sites). -/
def AddServiceJobToJobsManager (mgr : JobsManager) (id : Nat) (job : TimedServiceJob) :
    JobsManager :=
  (id, job) :: mgr

/-- Modelled from the spec: removal of a registry entry by identifier. -/
def RemoveServiceJobFromJobsManager (mgr : JobsManager) (id : Nat) : JobsManager :=
  mgr.filter (fun e => e.1 != id)

/-- Modelled from the spec: the base-class serialiser `GetServiceJobAsJSON`
producing the base fields of the persisted document shape — identifier,
name, description, type tag, status and result payload. -/
def GetServiceJobAsJSON (job : ServiceJob) : JsonValue :=
  .jObj [("id", .jInt (Int.ofNat job.sj_id)),
         ("name", .jStr job.sj_name),
         ("description", .jStr job.sj_description),
         ("type", .jStr job.sj_type),
         ("status", .jInt (statusToInt job.sj_status)),
         ("result", job.sj_result)]

/-- Modelled from the spec: the base-class deserialiser
`InitServiceJobFromJSON` restoring the base job fields from the persisted
document; the result payload is optional. -/
def InitServiceJobFromJSON (json : JsonValue) : Option ServiceJob := do
  let id_n ← GetJSONLong json "id"
  let name ← GetJSONString json "name"
  let description ← GetJSONString json "description"
  let type_tag ← GetJSONString json "type"
  let status_n ← GetJSONLong json "status"
  let status ← statusFromInt status_n
  pure { sj_id := id_n.toNat
         sj_name := name
         sj_description := description
         sj_type := type_tag
         sj_status := status
         sj_result := (jsonObjectGet json "result").getD .jNull }

/-- Model of `GetTimedServiceJobAsJSON`: the base job's JSON plus the
interval's `start` and `end` timestamps as integer fields.  Note that
neither the interval's duration nor the added-to-registry flag is written
to the document. -/
def GetTimedServiceJobAsJSON (job : TimedServiceJob) : JsonValue :=
  let json := GetServiceJobAsJSON job.tsj_job
  jsonObjectSet (jsonObjectSet json LRS_START_S (.jInt job.tsj_interval.ti_start))
    LRS_END_S (.jInt job.tsj_interval.ti_end)

/-- Model of `GetTimedServiceJobFromJSON`: rehydrate a job from a persisted
document.  The C code allocates the `TimeInterval` with `AllocMemory` and
writes only its `ti_start` and `ti_end` fields, so the rehydrated
`ti_duration` keeps the allocation residue, modelled by the explicit
`junk_duration` argument.  Returns the job together with the possibly
updated JobsManager (the reconciliation rule may remove a stale entry). -/
def GetTimedServiceJobFromJSON (junk_duration : Int) (now : Int) (mgr : JobsManager)
    (json : JsonValue) : Option (TimedServiceJob × JobsManager) :=
  match InitServiceJobFromJSON json with
  | none => none
  | some base =>
    match GetJSONLong json LRS_START_S with
    | none => none
    | some s =>
      match GetJSONLong json LRS_END_S with
      | none => none
      | some e =>
        let old_status := GetServiceJobStatus base
        let added := (GetJSONBoolean json LRS_ADDED_FLAG_S).getD false
        let job : TimedServiceJob :=
          { tsj_job := base
            tsj_interval := { ti_start := s, ti_end := e, ti_duration := junk_duration }
            tsj_added_flag := added }
        if old_status = .OS_STARTED then
          let (new_status, job) := GetTimedServiceJobStatus now job
          if new_status ≠ old_status then
            some (job, RemoveServiceJobFromJobsManager mgr job.tsj_job.sj_id)
          else
            some (job, mgr)
        else
          some (job, mgr)

/-- The protocol tag of the generic inline resource envelope. -/
def PROTOCOL_INLINE_S : String := "inline"

/-- Modelled from the spec: the external helper producing a generic
"inline resource" envelope wrapping a data payload. -/
def GetDataResourceAsJSONByParts (protocol title : String) (data : JsonValue) : JsonValue :=
  .jObj [("protocol", .jStr protocol), ("title", .jStr title), ("data", data)]

/-- Model of `GetLongRunningResultsAsJSON`: resolve the job by identifier
through the JobsManager; on a hit build the raw start/end object, build the
inline resource envelope around it, then append the raw object — not the
envelope — to the returned one-element array (mirroring the C code, which
passes `result_p` rather than `resource_json_p` to
`json_array_append_new`); on a miss return no array and log an error naming
the identifier. -/
def GetLongRunningResultsAsJSON (mgr : JobsManager) (job_id : Nat) :
    Option JsonValue × List String :=
  match GetServiceJobFromJobsManager mgr job_id with
  | some job =>
      let result : JsonValue :=
        .jObj [(LRS_START_S, .jInt job.tsj_interval.ti_start),
               (LRS_END_S, .jInt job.tsj_interval.ti_end)]
      let _resource_json := GetDataResourceAsJSONByParts PROTOCOL_INLINE_S "Long Runner" result
      (some (.jArr [result]), [])
  | none =>
      (none, ["Failed to get job data for " ++ toString job_id])

/-- Model of `GetLongRunningServiceStatus`: resolve the job by identifier
and evaluate the timed status rule, or report `OS_ERROR` and log the
unknown identifier. -/
def GetLongRunningServiceStatus (now : Int) (mgr : JobsManager) (job_id : Nat) :
    OperationStatus × List String :=
  match GetServiceJobFromJobsManager mgr job_id with
  | some job => ((GetTimedServiceJobStatus now job).1, [])
  | none => (.OS_ERROR, ["Failed to get job data for " ++ toString job_id])

/-- Model of the job-building loop of `GetServiceJobSet`.  The first
argument of the recursion is the loop counter `i`, the second the number of
jobs still to build.  `rands i` models the `rand ()` call of iteration `i`,
`ids i` the fresh identifier generated by `InitServiceJob`, and the oracles
`allocOk` / `addOk` model failure of `AllocateTimedServiceJob` /
`AddServiceJobToService` at iteration `i`.  Any failure makes the whole
batch fail (`none`), mirroring `FreeServiceJobSet` tearing down the jobs
built so far. -/
def GetServiceJobSetLoop (min_duration : Int) (rands ids : Nat → Nat)
    (allocOk addOk : Nat → Bool) : Nat → Nat → Option (List TimedServiceJob)
  | _, 0 => some []
  | i, remaining + 1 =>
      let duration : Int := min_duration + Int.ofNat (rands i % 60)
      let job_name_s := "job " ++ toString i
      let job_description_s := "duration " ++ toString ((duration.emod (2 ^ 64)).toNat)
      if allocOk i then
        let job := AllocateTimedServiceJob (ids i) job_name_s job_description_s duration
        if addOk i then
          match GetServiceJobSetLoop min_duration rands ids allocOk addOk (i + 1) remaining with
          | some rest => some (job :: rest)
          | none => none
        else none
      else none

/-- Model of `GetServiceJobSet`: build `num_jobs` timed jobs, each with
duration `min_duration + (rand () % 60)` and name derived from its index;
all-or-nothing on failure. -/
def GetServiceJobSet (num_jobs : Nat) (min_duration : Int) (rands ids : Nat → Nat)
    (allocOk addOk : Nat → Bool) : Option (List TimedServiceJob) :=
  GetServiceJobSetLoop min_duration rands ids allocOk addOk 0 num_jobs

/-- The per-job transformation performed by the run loop of
`RunLongRunningService`: start the job, recompute and cache its status, set
the added flag optimistically, and roll the flag back if registration into
the JobsManager (oracle `regOk`, keyed by job identifier) fails. -/
def ProcessTimedServiceJob (now : Int) (regOk : Nat → Bool) (job : TimedServiceJob) :
    TimedServiceJob :=
  let job := StartTimedServiceJob now job
  let (status, job) := GetTimedServiceJobStatus now job
  let job := SetServiceJobStatus job status
  let job := { job with tsj_added_flag := true }
  if regOk job.tsj_job.sj_id then job else { job with tsj_added_flag := false }

/-- Model of the job loop of `RunLongRunningService` (lines 566-596 of the
C source): every job of the set is started, its status cached, its added
flag set optimistically, and registration into the JobsManager attempted;
a registration failure rolls the flag back, logs the failure and the loop
continues.  Returns the processed job set, the updated JobsManager and the
log messages. -/
def RunLongRunningServiceLoop (now : Int) (regOk : Nat → Bool) (mgr : JobsManager) :
    List TimedServiceJob → List TimedServiceJob × JobsManager × List String
  | [] => ([], mgr, [])
  | job :: rest =>
      let job := StartTimedServiceJob now job
      let (status, job) := GetTimedServiceJobStatus now job
      let job := SetServiceJobStatus job status
      let job := { job with tsj_added_flag := true }
      if regOk job.tsj_job.sj_id then
        let mgr := AddServiceJobToJobsManager mgr job.tsj_job.sj_id job
        let (rest_out, mgr_out, logs) := RunLongRunningServiceLoop now regOk mgr rest
        (job :: rest_out, mgr_out, logs)
      else
        let job := { job with tsj_added_flag := false }
        let (rest_out, mgr_out, logs) := RunLongRunningServiceLoop now regOk mgr rest
        (job :: rest_out, mgr_out,
          ("Failed to add job " ++ toString job.tsj_job.sj_id ++ " to JobsManager") :: logs)

/-- Model of `RunLongRunningService`: build the job set (a zero job count
builds nothing and returns no set, as in the C source), then run the job
loop over it. -/
def RunLongRunningService (now : Int) (num_jobs : Nat) (min_duration : Int)
    (rands ids : Nat → Nat) (allocOk addOk regOk : Nat → Bool) (mgr : JobsManager) :
    Option (List TimedServiceJob) × JobsManager × List String :=
  if num_jobs = 0 then (none, mgr, [])
  else
    match GetServiceJobSet num_jobs min_duration rands ids allocOk addOk with
    | none => (none, mgr, [])
    | some jobs =>
        let (out, mgr_out, logs) := RunLongRunningServiceLoop now regOk mgr jobs
        (some out, mgr_out, logs)

/-- Model of the job-scanning loop of `CloseLongRunningService`: stop with
`false` as soon as a job's freshly evaluated status is `OS_PENDING` or
`OS_STARTED`, otherwise continue to the end and report `true`. -/
def CloseLongRunningServiceLoop (now : Int) : List TimedServiceJob → Bool
  | [] => true
  | job :: rest =>
      let status := (GetTimedServiceJobStatus now job).1
      if status = .OS_PENDING ∨ status = .OS_STARTED then false
      else CloseLongRunningServiceLoop now rest

/-- The outcome of `CloseLongRunningService`: the returned flag and whether
the service-level data was freed. -/
structure CloseResult where
  close_flag : Bool
  data_freed : Bool
deriving DecidableEq, Repr

/-- Model of `CloseLongRunningService`: scan the owned job set (if any) for
a job that is still pending or started; free the service data exactly when
no such job exists, and return that same flag. -/
def CloseLongRunningService (now : Int) (se_jobs : Option (List TimedServiceJob)) :
    CloseResult :=
  let close_flag :=
    match se_jobs with
    | none => true
    | some jobs => CloseLongRunningServiceLoop now jobs
  { close_flag := close_flag, data_freed := close_flag }

/-- Example fixture: a freshly allocated job with duration 5 and identifier 7. -/
def jobDur5 : TimedServiceJob := AllocateTimedServiceJob 7 "job 0" "duration 5" 5

/-- Example fixture: a persisted document whose stored status is `STARTED`
with interval timestamps 10 and 20. -/
def docStartedStale : JsonValue :=
  .jObj [("id", .jInt 7), ("name", .jStr "job 0"), ("description", .jStr "duration 5"),
         ("type", .jStr LRS_SERVICE_JOB_TYPE_S), ("status", .jInt 2), ("result", .jNull),
         (LRS_START_S, .jInt 10), (LRS_END_S, .jInt 20)]

/-- The base job described by `docStartedStale`. -/
def baseStale : ServiceJob :=
  { sj_id := 7, sj_name := "job 0", sj_description := "duration 5",
    sj_type := LRS_SERVICE_JOB_TYPE_S, sj_status := .OS_STARTED, sj_result := .jNull }

/-- The timed job rebuilt from `docStartedStale` before reconciliation, with
allocation residue 0 in the duration field. -/
def preStale : TimedServiceJob :=
  { tsj_job := baseStale
    tsj_interval := { ti_start := 10, ti_end := 20, ti_duration := 0 }
    tsj_added_flag := false }

/-- The concrete round trip of `jobDur5` with allocation residue 0. -/
def jobDur5Roundtrip : TimedServiceJob :=
  { tsj_job := { sj_id := 7, sj_name := "job 0", sj_description := "duration 5",
                 sj_type := LRS_SERVICE_JOB_TYPE_S, sj_status := .OS_IDLE,
                 sj_result := .jNull }
    tsj_interval := { ti_start := 0, ti_end := 0, ti_duration := 0 }
    tsj_added_flag := false }

/-- Example fixture: a persisted document with a `start` field but no `end`
field. -/
def docNoEnd : JsonValue :=
  .jObj [("id", .jInt 7), ("name", .jStr "job 0"), ("description", .jStr "duration 5"),
         ("type", .jStr LRS_SERVICE_JOB_TYPE_S), ("status", .jInt 0), ("result", .jNull),
         (LRS_START_S, .jInt 10)]

end LongRunningService

open LongRunningService

/-- Round trip of the status encoding used by the persisted document form. -/
theorem statusFromInt_statusToInt (s : OperationStatus) :
    statusFromInt (statusToInt s) = some s := by
  cases s <;> rfl

/-- C3: `GetTimedServiceJobStatus` implements exactly the specified case
split — `IDLE` when `start == end`, otherwise `ERROR` when `now < start`,
`STARTED` when `start <= now <= end`, `SUCCEEDED` when `now > end` — and
its only side effect is writing the derived status onto the job's status
field. -/
theorem timed_status_case_split (now : Int) (job : TimedServiceJob) :
    (job.tsj_interval.ti_start = job.tsj_interval.ti_end →
      (GetTimedServiceJobStatus now job).1 = OperationStatus.OS_IDLE) ∧
    (job.tsj_interval.ti_start ≠ job.tsj_interval.ti_end →
      now < job.tsj_interval.ti_start →
      (GetTimedServiceJobStatus now job).1 = OperationStatus.OS_ERROR) ∧
    (job.tsj_interval.ti_start ≠ job.tsj_interval.ti_end →
      job.tsj_interval.ti_start ≤ now → now ≤ job.tsj_interval.ti_end →
      (GetTimedServiceJobStatus now job).1 = OperationStatus.OS_STARTED) ∧
    (job.tsj_interval.ti_start ≠ job.tsj_interval.ti_end →
      job.tsj_interval.ti_start ≤ now → job.tsj_interval.ti_end < now →
      (GetTimedServiceJobStatus now job).1 = OperationStatus.OS_SUCCEEDED) ∧
    (GetTimedServiceJobStatus now job).2 =
      SetServiceJobStatus job (GetTimedServiceJobStatus now job).1 := by
  refine ⟨?_, ?_, ?_, ?_, rfl⟩
  · intro h
    simp [GetTimedServiceJobStatus, h]
  · intro h hlt
    have hge : ¬ (now ≥ job.tsj_interval.ti_start) := by omega
    simp [GetTimedServiceJobStatus, h, hge]
  · intro h h1 h2
    have hge : now ≥ job.tsj_interval.ti_start := h1
    simp [GetTimedServiceJobStatus, h, hge, h2]
  · intro h h1 h2
    have hge : now ≥ job.tsj_interval.ti_start := h1
    have hle : ¬ (now ≤ job.tsj_interval.ti_end) := by omega
    simp [GetTimedServiceJobStatus, h, hge, hle]

/-- Witness for `timed_status_case_split` at a concrete started job and
query time. -/
theorem timed_status_case_split_witness :
    (GetTimedServiceJobStatus 12 (StartTimedServiceJob 10 jobDur5)).1 =
      OperationStatus.OS_STARTED :=
  (timed_status_case_split 12 (StartTimedServiceJob 10 jobDur5)).2.2.1
    (by decide) (by decide) (by decide)

/-- Counterexample to C1 as stated: with duration `d = 0`, a job started at
`t0 = 0` and queried at time `0 ∈ [t0, t0 + d]` reports `IDLE`, not
`STARTED`, because starting sets `start = end` and the status rule treats
`start == end` as never started. -/
theorem zero_duration_started_job_reports_idle :
    (GetTimedServiceJobStatus 0
        (StartTimedServiceJob 0 (AllocateTimedServiceJob 0 "job 0" "duration 0" 0))).1 ≠
      OperationStatus.OS_STARTED ∧
    (GetTimedServiceJobStatus 0
        (StartTimedServiceJob 0 (AllocateTimedServiceJob 0 "job 0" "duration 0" 0))).1 =
      OperationStatus.OS_IDLE := by
  exact ⟨by decide, by decide⟩

/-- C1 amended: for every duration `d ≥ 1` (rather than `d ≥ 0`; a
zero-duration job collapses to `start == end` and reports `IDLE`), a job
started at `t0` reports `STARTED` at every query time in `[t0, t0 + d]`
and `SUCCEEDED` at every query time strictly greater than `t0 + d`, and a
job that has not been started reports `IDLE` at every query time. -/
theorem timed_job_status_window (d : Int) (hd : 1 ≤ d) (t0 q : Int) (id : Nat)
    (name description : String) :
    ((GetTimedServiceJobStatus q (AllocateTimedServiceJob id name description d)).1 =
      OperationStatus.OS_IDLE) ∧
    (t0 ≤ q → q ≤ t0 + d →
      (GetTimedServiceJobStatus q
          (StartTimedServiceJob t0 (AllocateTimedServiceJob id name description d))).1 =
        OperationStatus.OS_STARTED) ∧
    (t0 + d < q →
      (GetTimedServiceJobStatus q
          (StartTimedServiceJob t0 (AllocateTimedServiceJob id name description d))).1 =
        OperationStatus.OS_SUCCEEDED) := by
  refine ⟨?_, ?_, ?_⟩
  · simp [GetTimedServiceJobStatus, AllocateTimedServiceJob]
  · intro h1 h2
    simp only [GetTimedServiceJobStatus, StartTimedServiceJob, AllocateTimedServiceJob,
      SetServiceJobStatus]
    have hne : t0 ≠ t0 + d := by omega
    simp [hne, h1, h2]
  · intro h1
    simp only [GetTimedServiceJobStatus, StartTimedServiceJob, AllocateTimedServiceJob,
      SetServiceJobStatus]
    have hne : t0 ≠ t0 + d := by omega
    have hge : q ≥ t0 := by omega
    have hle : ¬ (q ≤ t0 + d) := by omega
    simp [hne, hge, hle]

/-- Witness for `timed_job_status_window` with duration 5, start time 10
and query times 12 and 99. -/
theorem timed_job_status_window_witness :
    (GetTimedServiceJobStatus 12
        (StartTimedServiceJob 10 (AllocateTimedServiceJob 7 "job 0" "duration 5" 5))).1 =
      OperationStatus.OS_STARTED ∧
    (GetTimedServiceJobStatus 99
        (StartTimedServiceJob 10 (AllocateTimedServiceJob 7 "job 0" "duration 5" 5))).1 =
      OperationStatus.OS_SUCCEEDED :=
  ⟨(timed_job_status_window 5 (by decide) 10 12 7 "job 0" "duration 5").2.1
      (by decide) (by decide),
   (timed_job_status_window 5 (by decide) 10 99 7 "job 0" "duration 5").2.2
      (by decide)⟩

/-- Characterisation of a successful run of the job-building loop: the
batch has exactly the requested length and the job at offset `k` is the
one allocated at iteration `i + k`. -/
theorem getServiceJobSetLoop_spec (min_duration : Int) (rands ids : Nat → Nat)
    (allocOk addOk : Nat → Bool) :
    ∀ (remaining i : Nat) (js : List TimedServiceJob),
      GetServiceJobSetLoop min_duration rands ids allocOk addOk i remaining = some js →
      js.length = remaining ∧
      ∀ k (hk : k < js.length),
        js.get ⟨k, hk⟩ =
          AllocateTimedServiceJob (ids (i + k)) ("job " ++ toString (i + k))
            ("duration " ++
              toString (((min_duration + Int.ofNat (rands (i + k) % 60)).emod (2 ^ 64)).toNat))
            (min_duration + Int.ofNat (rands (i + k) % 60)) := by
  intro remaining
  induction remaining with
  | zero =>
      intro i js h
      simp only [GetServiceJobSetLoop] at h
      cases h
      exact ⟨rfl, by intro k hk; simp at hk⟩
  | succ m ih =>
      intro i js h
      simp only [GetServiceJobSetLoop] at h
      by_cases ha : allocOk i = true
      · rw [if_pos ha] at h
        by_cases hb : addOk i = true
        · rw [if_pos hb] at h
          cases hrec : GetServiceJobSetLoop min_duration rands ids allocOk addOk (i + 1) m with
          | none => rw [hrec] at h; cases h
          | some rest =>
              rw [hrec] at h
              cases h
              obtain ⟨hlen, hget⟩ := ih (i + 1) rest hrec
              refine ⟨by simp [hlen], ?_⟩
              intro k hk
              cases k with
              | zero => simp
              | succ k0 =>
                  have hk0 : k0 < rest.length := by
                    simp [List.length_cons] at hk
                    omega
                  have := hget k0 hk0
                  simp only [List.get_cons_succ]
                  rw [this]
                  have harith : i + 1 + k0 = i + (k0 + 1) := by omega
                  rw [harith]
        · rw [if_neg hb] at h; cases h
      · rw [if_neg ha] at h; cases h

/-- When every iteration's allocation and registration succeed, the
job-building loop produces a batch. -/
theorem getServiceJobSetLoop_total (min_duration : Int) (rands ids : Nat → Nat)
    (allocOk addOk : Nat → Bool) :
    ∀ (remaining i : Nat),
      (∀ k, k < remaining → allocOk (i + k) = true ∧ addOk (i + k) = true) →
      ∃ js, GetServiceJobSetLoop min_duration rands ids allocOk addOk i remaining = some js := by
  intro remaining
  induction remaining with
  | zero => intro i _; exact ⟨[], rfl⟩
  | succ m ih =>
      intro i h
      have h0 := h 0 (Nat.succ_pos m)
      rw [Nat.add_zero] at h0
      obtain ⟨js, hjs⟩ := ih (i + 1) (fun k hk => by
        have := h (k + 1) (Nat.succ_lt_succ hk)
        have harith : i + (k + 1) = i + 1 + k := by omega
        rw [harith] at this
        exact this)
      refine ⟨AllocateTimedServiceJob (ids i) ("job " ++ toString i)
        ("duration " ++ toString (((min_duration + Int.ofNat (rands i % 60)).emod (2 ^ 64)).toNat))
        (min_duration + Int.ofNat (rands i % 60)) :: js, ?_⟩
      simp only [GetServiceJobSetLoop]
      rw [if_pos h0.1, if_pos h0.2, hjs]

/-- A failure of allocation or registration at any reachable iteration
makes the whole job-building loop fail. -/
theorem getServiceJobSetLoop_abort (min_duration : Int) (rands ids : Nat → Nat)
    (allocOk addOk : Nat → Bool) :
    ∀ (remaining i k : Nat), k < remaining →
      (allocOk (i + k) = false ∨ addOk (i + k) = false) →
      GetServiceJobSetLoop min_duration rands ids allocOk addOk i remaining = none := by
  intro remaining
  induction remaining with
  | zero => intro i k hk; omega
  | succ m ih =>
      intro i k hk hfail
      simp only [GetServiceJobSetLoop]
      by_cases ha : allocOk i = true
      · rw [if_pos ha]
        by_cases hb : addOk i = true
        · rw [if_pos hb]
          cases k with
          | zero =>
              rw [Nat.add_zero] at hfail
              rcases hfail with hf | hf
              · rw [ha] at hf; cases hf
              · rw [hb] at hf; cases hf
          | succ k0 =>
              have harith : i + (k0 + 1) = i + 1 + k0 := by omega
              rw [harith] at hfail
              rw [ih (i + 1) k0 (by omega) hfail]
        · rw [if_neg hb]
      · rw [if_neg ha]

/-- C6: for count `n` and minimum duration `d`, the batch builder produces
exactly `n` jobs, each with duration in `[d, d + 59]` and named by its
batch index, when every per-job allocation and registration succeeds; and
any single failure makes the whole operation fail with no partial batch. -/
theorem job_set_batch_contract (n : Nat) (d : Int) (rands ids : Nat → Nat)
    (allocOk addOk : Nat → Bool) :
    ((∀ i, i < n → allocOk i = true ∧ addOk i = true) →
      ∃ js, GetServiceJobSet n d rands ids allocOk addOk = some js ∧
        js.length = n ∧
        ∀ k (hk : k < js.length),
          d ≤ (js.get ⟨k, hk⟩).tsj_interval.ti_duration ∧
          (js.get ⟨k, hk⟩).tsj_interval.ti_duration ≤ d + 59 ∧
          (js.get ⟨k, hk⟩).tsj_job.sj_name = "job " ++ toString k) ∧
    ((∃ i, i < n ∧ (allocOk i = false ∨ addOk i = false)) →
      GetServiceJobSet n d rands ids allocOk addOk = none) := by
  constructor
  · intro hok
    obtain ⟨js, hjs⟩ := getServiceJobSetLoop_total d rands ids allocOk addOk n 0
      (fun k hk => by simpa using hok k hk)
    obtain ⟨hlen, hget⟩ := getServiceJobSetLoop_spec d rands ids allocOk addOk n 0 js hjs
    refine ⟨js, hjs, hlen, ?_⟩
    intro k hk
    have h := hget k hk
    rw [Nat.zero_add] at h
    rw [h]
    have hmod : rands k % 60 < 60 := Nat.mod_lt _ (by omega)
    have h0 : (0 : Int) ≤ Int.ofNat (rands k % 60) := Int.ofNat_nonneg _
    have h59 : Int.ofNat (rands k % 60) < 60 := Int.ofNat_lt.mpr hmod
    refine ⟨?_, ?_, rfl⟩
    · show d ≤ d + Int.ofNat (rands k % 60)
      omega
    · show d + Int.ofNat (rands k % 60) ≤ d + 59
      omega
  · rintro ⟨i, hi, hfail⟩
    exact getServiceJobSetLoop_abort d rands ids allocOk addOk n 0 i hi
      (by simpa using hfail)

/-- Witness for `job_set_batch_contract`: a fully successful batch of two
jobs, and a batch of one that fails to allocate. -/
theorem job_set_batch_contract_witness :
    (∃ js, GetServiceJobSet 2 10 (fun i => i * 7) (fun i => i)
        (fun _ => true) (fun _ => true) = some js ∧
      js.length = 2 ∧
      ∀ k (hk : k < js.length),
        10 ≤ (js.get ⟨k, hk⟩).tsj_interval.ti_duration ∧
        (js.get ⟨k, hk⟩).tsj_interval.ti_duration ≤ 10 + 59 ∧
        (js.get ⟨k, hk⟩).tsj_job.sj_name = "job " ++ toString k) ∧
    GetServiceJobSet 1 10 (fun i => i * 7) (fun i => i)
        (fun _ => false) (fun _ => true) = none :=
  ⟨(job_set_batch_contract 2 10 (fun i => i * 7) (fun i => i)
        (fun _ => true) (fun _ => true)).1 (fun i _ => ⟨rfl, rfl⟩),
   (job_set_batch_contract 1 10 (fun i => i * 7) (fun i => i)
        (fun _ => false) (fun _ => true)).2 ⟨0, by decide, Or.inl rfl⟩⟩

/-- C10: a job allocated with a negative duration (the signed
minimum-duration parameter is never validated) has `end < start` once
started; every status query at or after the start time reports
`SUCCEEDED`, and no query time ever observes `STARTED`; and every batch
built with `min_duration + 59 < 0` consists only of such
negative-duration jobs. -/
theorem negative_duration_job_never_started (d : Int) (hd : d < 0) (id : Nat)
    (name description : String) (t0 q : Int) :
    ((StartTimedServiceJob t0 (AllocateTimedServiceJob id name description d)).tsj_interval.ti_end <
      (StartTimedServiceJob t0 (AllocateTimedServiceJob id name description d)).tsj_interval.ti_start) ∧
    (t0 ≤ q →
      (GetTimedServiceJobStatus q
          (StartTimedServiceJob t0 (AllocateTimedServiceJob id name description d))).1 =
        OperationStatus.OS_SUCCEEDED) ∧
    ((GetTimedServiceJobStatus q
        (StartTimedServiceJob t0 (AllocateTimedServiceJob id name description d))).1 ≠
      OperationStatus.OS_STARTED) ∧
    (∀ (n : Nat) (min_d : Int) (rands ids2 : Nat → Nat) (allocOk addOk : Nat → Bool)
        (js : List TimedServiceJob),
      min_d + 59 < 0 →
      GetServiceJobSet n min_d rands ids2 allocOk addOk = some js →
      ∀ job ∈ js, job.tsj_interval.ti_duration < 0) := by
  refine ⟨?_, ?_, ?_, ?_⟩
  · show t0 + d < t0
    omega
  · intro hq
    have hne : t0 ≠ t0 + d := by omega
    have hge : q ≥ t0 := hq
    have hle : ¬ (q ≤ t0 + d) := by omega
    simp [GetTimedServiceJobStatus, StartTimedServiceJob, AllocateTimedServiceJob,
      SetServiceJobStatus, hne, hge, hle]
  · have hne : t0 ≠ t0 + d := by omega
    by_cases hq : q ≥ t0
    · have hle : ¬ (q ≤ t0 + d) := by omega
      simp [GetTimedServiceJobStatus, StartTimedServiceJob, AllocateTimedServiceJob,
        SetServiceJobStatus, hne, hq, hle]
    · simp [GetTimedServiceJobStatus, StartTimedServiceJob, AllocateTimedServiceJob,
        SetServiceJobStatus, hne, hq]
  · intro n min_d rands ids2 allocOk addOk js hneg hjs job hmem
    obtain ⟨⟨k, hk⟩, hEq⟩ := List.mem_iff_get.mp hmem
    obtain ⟨hlen, hget⟩ := getServiceJobSetLoop_spec min_d rands ids2 allocOk addOk n 0 js hjs
    have h := hget k hk
    rw [Nat.zero_add] at h
    rw [← hEq, h]
    show min_d + Int.ofNat (rands k % 60) < 0
    have hmod : rands k % 60 < 60 := Nat.mod_lt _ (by omega)
    have h0 : (0 : Int) ≤ Int.ofNat (rands k % 60) := Int.ofNat_nonneg _
    have h59 : Int.ofNat (rands k % 60) < 60 := Int.ofNat_lt.mpr hmod
    omega

/-- Witness for `negative_duration_job_never_started` at duration -100,
start time 10 and query time 10, together with a one-job batch built with
minimum duration -100. -/
theorem negative_duration_job_never_started_witness :
    ((GetTimedServiceJobStatus 10
        (StartTimedServiceJob 10 (AllocateTimedServiceJob 1 "job 0" "duration d" (-100)))).1 =
      OperationStatus.OS_SUCCEEDED) ∧
    (∀ job ∈ [AllocateTimedServiceJob 0 ("job " ++ toString 0)
        ("duration " ++ toString ((((-100 : Int) + Int.ofNat (3 % 60)).emod (2 ^ 64)).toNat))
        ((-100 : Int) + Int.ofNat (3 % 60))],
      job.tsj_interval.ti_duration < 0) :=
  ⟨(negative_duration_job_never_started (-100) (by decide) 1 "job 0" "duration d" 10 10).2.1
      (le_refl 10),
   (negative_duration_job_never_started (-100) (by decide) 1 "job 0" "duration d" 10 10).2.2.2
      1 (-100) (fun _ => 3) (fun i => i) (fun _ => true) (fun _ => true) _
      (by decide) rfl⟩

/-- The close-scan loop reports `true` exactly when no job's freshly
evaluated status is pending or started. -/
theorem closeLoop_iff (now : Int) (js : List TimedServiceJob) :
    CloseLongRunningServiceLoop now js = true ↔
      ∀ job ∈ js,
        (GetTimedServiceJobStatus now job).1 ≠ OperationStatus.OS_PENDING ∧
        (GetTimedServiceJobStatus now job).1 ≠ OperationStatus.OS_STARTED := by
  induction js with
  | nil => simp [CloseLongRunningServiceLoop]
  | cons job rest ih =>
      by_cases h : (GetTimedServiceJobStatus now job).1 = OperationStatus.OS_PENDING ∨
          (GetTimedServiceJobStatus now job).1 = OperationStatus.OS_STARTED
      · simp only [CloseLongRunningServiceLoop, if_pos h]
        constructor
        · intro hfalse; cases hfalse
        · intro hall
          have := hall job (List.Mem.head rest)
          rcases h with h | h
          · exact absurd h this.1
          · exact absurd h this.2
      · simp only [CloseLongRunningServiceLoop, if_neg h]
        rw [ih]
        constructor
        · intro hall job2 hmem
          cases hmem with
          | head => exact ⟨fun hp => h (Or.inl hp), fun hs => h (Or.inr hs)⟩
          | tail _ hmem2 => exact hall job2 hmem2
        · intro hall job2 hmem
          exact hall job2 (List.Mem.tail job hmem)

/-- C9: the close request returns "not closed" and frees nothing whenever
some managed job's evaluated status is `STARTED` or `PENDING`, and returns
success — releasing the service data — exactly when no managed job is in
either of those states. -/
theorem close_service_iff_no_outstanding (now : Int)
    (se_jobs : Option (List TimedServiceJob)) :
    ((CloseLongRunningService now se_jobs).close_flag = true ↔
      ∀ js, se_jobs = some js → ∀ job ∈ js,
        (GetTimedServiceJobStatus now job).1 ≠ OperationStatus.OS_PENDING ∧
        (GetTimedServiceJobStatus now job).1 ≠ OperationStatus.OS_STARTED) ∧
    (CloseLongRunningService now se_jobs).data_freed =
      (CloseLongRunningService now se_jobs).close_flag := by
  refine ⟨?_, rfl⟩
  cases se_jobs with
  | none =>
      simp only [CloseLongRunningService]
      constructor
      · intro _ js hjs; cases hjs
      · intro _; trivial
  | some js =>
      simp only [CloseLongRunningService]
      rw [closeLoop_iff]
      constructor
      · intro hall js2 hjs2
        cases Option.some.inj hjs2
        exact hall
      · intro hall
        exact hall js rfl

/-- Witness for `close_service_iff_no_outstanding`: a service whose only
job finished long ago closes successfully. -/
theorem close_service_iff_no_outstanding_witness :
    (CloseLongRunningService 100 (some [StartTimedServiceJob 0 jobDur5])).close_flag = true :=
  (close_service_iff_no_outstanding 100 (some [StartTimedServiceJob 0 jobDur5])).1.mpr
    (by
      intro js hjs job hmem
      cases Option.some.inj hjs
      rw [List.mem_singleton] at hmem
      subst hmem
      exact ⟨by decide, by decide⟩)

/-- The run loop returns the input jobs transformed pointwise by
`ProcessTimedServiceJob` (same length, same order — a registration failure
never drops a job from the returned set). -/
theorem runLoop_jobs_eq (now : Int) (regOk : Nat → Bool) :
    ∀ (jobs : List TimedServiceJob) (mgr : JobsManager),
      (RunLongRunningServiceLoop now regOk mgr jobs).1 =
        jobs.map (ProcessTimedServiceJob now regOk) := by
  intro jobs
  induction jobs with
  | nil => intro mgr; rfl
  | cons job rest ih =>
      intro mgr
      simp only [RunLongRunningServiceLoop, ProcessTimedServiceJob, List.map_cons]
      by_cases h : regOk (SetServiceJobStatus
          (GetTimedServiceJobStatus now (StartTimedServiceJob now job)).2
          (GetTimedServiceJobStatus now (StartTimedServiceJob now job)).1).tsj_job.sj_id = true
      · rw [if_pos h, if_pos h]
        simp [ih]
      · rw [if_neg h, if_neg h]
        simp [ih]

/-- A registration failure for a job of the run loop leaves its error
message in the log. -/
theorem runLoop_logs_failure (now : Int) (regOk : Nat → Bool) :
    ∀ (jobs : List TimedServiceJob) (mgr : JobsManager) (job : TimedServiceJob),
      job ∈ jobs → regOk job.tsj_job.sj_id = false →
      ("Failed to add job " ++ toString job.tsj_job.sj_id ++ " to JobsManager") ∈
        (RunLongRunningServiceLoop now regOk mgr jobs).2.2 := by
  intro jobs
  induction jobs with
  | nil => intro mgr job hmem; cases hmem
  | cons job0 rest ih =>
      intro mgr job hmem hfail
      cases hmem with
      | head =>
          simp only [RunLongRunningServiceLoop]
          rw [if_neg (by simpa [ProcessTimedServiceJob, StartTimedServiceJob,
            SetServiceJobStatus, GetTimedServiceJobStatus] using hfail)]
          exact List.Mem.head _
      | tail _ hmem2 =>
          simp only [RunLongRunningServiceLoop]
          by_cases h : regOk (SetServiceJobStatus
              (GetTimedServiceJobStatus now (StartTimedServiceJob now job0)).2
              (GetTimedServiceJobStatus now (StartTimedServiceJob now job0)).1).tsj_job.sj_id = true
          · rw [if_pos h]
            exact ih _ job hmem2 hfail
          · rw [if_neg h]
            exact List.Mem.tail _ (ih _ job hmem2 hfail)

/-- C7: the run loop processes every job of the set in order — each job is
started (interval stamped from `now`), its identifier is unchanged, its
added flag ends up `true` exactly when registration succeeded and is
rolled back to `false` on a registration failure — a failed registration
is logged and the job is still returned in the processed set (the loop
never drops a job). -/
theorem run_loop_registration_rollback (now : Int) (regOk : Nat → Bool)
    (mgr : JobsManager) (jobs : List TimedServiceJob) :
    (RunLongRunningServiceLoop now regOk mgr jobs).1 =
      jobs.map (ProcessTimedServiceJob now regOk) ∧
    (∀ job : TimedServiceJob,
      (ProcessTimedServiceJob now regOk job).tsj_interval.ti_start = now ∧
      (ProcessTimedServiceJob now regOk job).tsj_interval.ti_end =
        now + job.tsj_interval.ti_duration ∧
      (ProcessTimedServiceJob now regOk job).tsj_job.sj_id = job.tsj_job.sj_id ∧
      (ProcessTimedServiceJob now regOk job).tsj_added_flag = regOk job.tsj_job.sj_id) ∧
    (∀ job ∈ jobs, regOk job.tsj_job.sj_id = false →
      ("Failed to add job " ++ toString job.tsj_job.sj_id ++ " to JobsManager") ∈
        (RunLongRunningServiceLoop now regOk mgr jobs).2.2) := by
  refine ⟨runLoop_jobs_eq now regOk jobs mgr, ?_,
    fun job hmem hfail => runLoop_logs_failure now regOk jobs mgr job hmem hfail⟩
  intro job
  by_cases h : regOk job.tsj_job.sj_id = true
  · simp [ProcessTimedServiceJob, StartTimedServiceJob, GetTimedServiceJobStatus,
      SetServiceJobStatus, h]
  · simp only [Bool.not_eq_true] at h
    simp [ProcessTimedServiceJob, StartTimedServiceJob, GetTimedServiceJobStatus,
      SetServiceJobStatus, h]

/-- Witness for `run_loop_registration_rollback`: a one-job run whose
registration always fails still returns the job, with the flag rolled
back and the failure logged. -/
theorem run_loop_registration_rollback_witness :
    ("Failed to add job " ++ toString jobDur5.tsj_job.sj_id ++ " to JobsManager") ∈
      (RunLongRunningServiceLoop 10 (fun _ => false) [] [jobDur5]).2.2 ∧
    (ProcessTimedServiceJob 10 (fun _ => false) jobDur5).tsj_added_flag = false :=
  ⟨(run_loop_registration_rollback 10 (fun _ => false) [] [jobDur5]).2.2 jobDur5
      (List.Mem.head _) rfl,
   ((run_loop_registration_rollback 10 (fun _ => false) [] [jobDur5]).2.1 jobDur5).2.2.2⟩

/-- Deserialising the document produced for a timed job restores exactly
the base job. -/
theorem initFromJSON_of_timedJSON (job : TimedServiceJob) :
    InitServiceJobFromJSON (GetTimedServiceJobAsJSON job) = some job.tsj_job := by
  obtain ⟨⟨id, name, desc, tp, st, res⟩, ti, fl⟩ := job
  cases st <;> rfl

/-- The serialised document binds `start` to the interval's start time. -/
theorem timedJSON_start (job : TimedServiceJob) :
    GetJSONLong (GetTimedServiceJobAsJSON job) LRS_START_S =
      some job.tsj_interval.ti_start := rfl

/-- The serialised document binds `end` to the interval's end time. -/
theorem timedJSON_end (job : TimedServiceJob) :
    GetJSONLong (GetTimedServiceJobAsJSON job) LRS_END_S =
      some job.tsj_interval.ti_end := rfl

/-- The serialiser never writes the `added_to_job_manager` field. -/
theorem timedJSON_added (job : TimedServiceJob) :
    GetJSONBoolean (GetTimedServiceJobAsJSON job) LRS_ADDED_FLAG_S = none := rfl

/-- Counterexample to C2 as stated: the round trip does not preserve the
interval's duration.  Serialising `jobDur5` (duration 5) and rehydrating
it with allocation residue 0 yields a job whose duration field is 0, not
5 — the document carries no duration field and the C code never writes
`ti_duration` of the freshly allocated interval. -/
theorem roundtrip_duration_not_preserved :
    (GetTimedServiceJobFromJSON 0 0 [] (GetTimedServiceJobAsJSON jobDur5)).map
        (fun p => p.1.tsj_interval.ti_duration) ≠
      some jobDur5.tsj_interval.ti_duration ∧
    (GetTimedServiceJobFromJSON 0 0 [] (GetTimedServiceJobAsJSON jobDur5)).map
        (fun p => p.1.tsj_interval.ti_duration) = some 0 ∧
    jobDur5.tsj_interval.ti_duration = 5 :=
  ⟨by decide, rfl, rfl⟩

/-- C2 amended: serialising a timed job and rehydrating the result (with
any allocation residue `junk_duration`) preserves the identifier, name,
description, type tag and the interval's `start` and `end` timestamps
exactly; the interval's duration is not restored — the rehydrated job
carries the allocation residue — and the added flag is reset to `false`
(the serialiser never writes it); the status may differ only per the
reconciliation rule. -/
theorem roundtrip_preserves_identity_and_timestamps (job : TimedServiceJob)
    (junk_duration now : Int) (mgr : JobsManager) (job2 : TimedServiceJob)
    (mgr2 : JobsManager)
    (h : GetTimedServiceJobFromJSON junk_duration now mgr (GetTimedServiceJobAsJSON job) =
      some (job2, mgr2)) :
    job2.tsj_job.sj_id = job.tsj_job.sj_id ∧
    job2.tsj_job.sj_name = job.tsj_job.sj_name ∧
    job2.tsj_job.sj_description = job.tsj_job.sj_description ∧
    job2.tsj_job.sj_type = job.tsj_job.sj_type ∧
    job2.tsj_interval.ti_start = job.tsj_interval.ti_start ∧
    job2.tsj_interval.ti_end = job.tsj_interval.ti_end ∧
    job2.tsj_interval.ti_duration = junk_duration ∧
    job2.tsj_added_flag = false := by
  simp only [GetTimedServiceJobFromJSON, initFromJSON_of_timedJSON, timedJSON_start,
    timedJSON_end, timedJSON_added, GetServiceJobStatus, Option.getD_none] at h
  split at h
  · split at h
    · simp only [Option.some.injEq, Prod.mk.injEq] at h
      obtain ⟨h1, h2⟩ := h
      subst h1
      exact ⟨rfl, rfl, rfl, rfl, rfl, rfl, rfl, rfl⟩
    · simp only [Option.some.injEq, Prod.mk.injEq] at h
      obtain ⟨h1, h2⟩ := h
      subst h1
      exact ⟨rfl, rfl, rfl, rfl, rfl, rfl, rfl, rfl⟩
  · simp only [Option.some.injEq, Prod.mk.injEq] at h
    obtain ⟨h1, h2⟩ := h
    subst h1
    exact ⟨rfl, rfl, rfl, rfl, rfl, rfl, rfl, rfl⟩

/-- Witness for `roundtrip_preserves_identity_and_timestamps` on the
concrete round trip of `jobDur5`. -/
theorem roundtrip_preserves_identity_and_timestamps_witness :
    jobDur5Roundtrip.tsj_job.sj_name = jobDur5.tsj_job.sj_name ∧
    jobDur5Roundtrip.tsj_interval.ti_duration = 0 :=
  ⟨(roundtrip_preserves_identity_and_timestamps jobDur5 0 0 [] jobDur5Roundtrip [] rfl).2.1,
   (roundtrip_preserves_identity_and_timestamps jobDur5 0 0 [] jobDur5Roundtrip []
      rfl).2.2.2.2.2.2.1⟩

/-- C8: rehydration requires both the `start` and the `end` integer field —
if either is absent the operation returns no entity at all — while the
`added_to_job_manager` field is optional: when absent the rehydrated
job's added flag defaults to `false`, and when present the flag takes its
value. -/
theorem rehydration_requires_timestamps (junk_duration now : Int) (mgr : JobsManager)
    (json : JsonValue) :
    ((GetJSONLong json LRS_START_S = none ∨ GetJSONLong json LRS_END_S = none) →
      GetTimedServiceJobFromJSON junk_duration now mgr json = none) ∧
    (∀ job2 mgr2,
      GetTimedServiceJobFromJSON junk_duration now mgr json = some (job2, mgr2) →
      (GetJSONBoolean json LRS_ADDED_FLAG_S = none → job2.tsj_added_flag = false) ∧
      ∀ b, GetJSONBoolean json LRS_ADDED_FLAG_S = some b → job2.tsj_added_flag = b) := by
  constructor
  · intro hmiss
    simp only [GetTimedServiceJobFromJSON]
    cases hinit : InitServiceJobFromJSON json with
    | none => rfl
    | some base =>
        cases hs : GetJSONLong json LRS_START_S with
        | none => rfl
        | some s =>
            cases he : GetJSONLong json LRS_END_S with
            | none => rfl
            | some e =>
                rcases hmiss with hm | hm
                · rw [hs] at hm; cases hm
                · rw [he] at hm; cases hm
  · intro job2 mgr2 h
    simp only [GetTimedServiceJobFromJSON] at h
    cases hinit : InitServiceJobFromJSON json with
    | none => simp [hinit] at h
    | some base =>
        simp only [hinit] at h
        cases hs : GetJSONLong json LRS_START_S with
        | none => simp [hs] at h
        | some s =>
            simp only [hs] at h
            cases he : GetJSONLong json LRS_END_S with
            | none => simp [he] at h
            | some e =>
                simp only [he] at h
                have hflag : job2.tsj_added_flag =
                    (GetJSONBoolean json LRS_ADDED_FLAG_S).getD false := by
                  split at h
                  · split at h
                    · simp only [Option.some.injEq, Prod.mk.injEq] at h
                      obtain ⟨h1, h2⟩ := h
                      subst h1
                      rfl
                    · simp only [Option.some.injEq, Prod.mk.injEq] at h
                      obtain ⟨h1, h2⟩ := h
                      subst h1
                      rfl
                  · simp only [Option.some.injEq, Prod.mk.injEq] at h
                    obtain ⟨h1, h2⟩ := h
                    subst h1
                    rfl
                constructor
                · intro habs
                  rw [hflag, habs]
                  rfl
                · intro b hb
                  rw [hflag, hb]
                  rfl

/-- Witness for `rehydration_requires_timestamps`: a document missing its
`end` field produces no entity. -/
theorem rehydration_requires_timestamps_witness :
    GetTimedServiceJobFromJSON 0 0 [] docNoEnd = none :=
  (rehydration_requires_timestamps 0 0 [] docNoEnd).1 (Or.inr rfl)

/-- C4: rehydration recomputes the status only for a document whose stored
status is `STARTED`; it then returns the job carrying the freshly computed
status and removes the registry entry exactly when the recomputed status
differs, while a document stored with any other status is returned as
read, with the JobsManager untouched. -/
theorem rehydration_reconciliation (junk_duration now : Int) (mgr : JobsManager)
    (json : JsonValue) (base : ServiceJob) (s e : Int) (pre : TimedServiceJob)
    (hbase : InitServiceJobFromJSON json = some base)
    (hs : GetJSONLong json LRS_START_S = some s)
    (he : GetJSONLong json LRS_END_S = some e)
    (hpre : pre = { tsj_job := base
                    tsj_interval := { ti_start := s, ti_end := e, ti_duration := junk_duration }
                    tsj_added_flag := (GetJSONBoolean json LRS_ADDED_FLAG_S).getD false }) :
    (base.sj_status ≠ OperationStatus.OS_STARTED →
      GetTimedServiceJobFromJSON junk_duration now mgr json = some (pre, mgr)) ∧
    (base.sj_status = OperationStatus.OS_STARTED →
      GetTimedServiceJobFromJSON junk_duration now mgr json =
        (if (GetTimedServiceJobStatus now pre).1 ≠ OperationStatus.OS_STARTED then
          some ((GetTimedServiceJobStatus now pre).2,
            RemoveServiceJobFromJobsManager mgr base.sj_id)
        else some ((GetTimedServiceJobStatus now pre).2, mgr)) ∧
      (GetTimedServiceJobStatus now pre).2.tsj_job.sj_status =
        (GetTimedServiceJobStatus now pre).1) := by
  subst hpre
  constructor
  · intro hst
    simp only [GetTimedServiceJobFromJSON, hbase, hs, he, GetServiceJobStatus]
    rw [if_neg hst]
  · intro hst
    refine ⟨?_, rfl⟩
    simp only [GetTimedServiceJobFromJSON, hbase, hs, he, GetServiceJobStatus]
    simp only [hst]
    rfl

/-- Witness for `rehydration_reconciliation`: rehydrating
`docStartedStale` (stored status `STARTED`, interval 10..20) at time 100
returns the job with the freshly computed status and removes the stale
registry entry. -/
theorem rehydration_reconciliation_witness :
    GetTimedServiceJobFromJSON 0 100 [] docStartedStale =
      (if (GetTimedServiceJobStatus 100 preStale).1 ≠ OperationStatus.OS_STARTED then
        some ((GetTimedServiceJobStatus 100 preStale).2,
          RemoveServiceJobFromJobsManager [] baseStale.sj_id)
      else some ((GetTimedServiceJobStatus 100 preStale).2, [])) :=
  ((rehydration_reconciliation 0 100 [] docStartedStale baseStale 10 20 preStale
      rfl rfl rfl rfl).2 rfl).1

/-- C5 (code bug): for a known identifier the result query returns a
one-element array whose element is the bare start/end object, not the
inline-resource envelope — the C code builds the envelope
(`GetDataResourceAsJSONByParts`) and then appends the raw `result_p`
object to the array, discarding the envelope (and decref-ing `result_p`
before appending it).  The bare element has no `protocol` field, while
the envelope the code built and dropped does.  For an unknown identifier
the query returns no array and logs an error naming the identifier. -/
theorem results_query_drops_envelope :
    (GetLongRunningResultsAsJSON [(7, StartTimedServiceJob 10 jobDur5)] 7).1 =
      some (.jArr [.jObj [(LRS_START_S, .jInt 10), (LRS_END_S, .jInt 15)]]) ∧
    jsonObjectGet (.jObj [(LRS_START_S, .jInt 10), (LRS_END_S, .jInt 15)]) "protocol" =
      none ∧
    jsonObjectGet
        (GetDataResourceAsJSONByParts PROTOCOL_INLINE_S "Long Runner"
          (.jObj [(LRS_START_S, .jInt 10), (LRS_END_S, .jInt 15)])) "protocol" =
      some (.jStr PROTOCOL_INLINE_S) ∧
    (GetLongRunningResultsAsJSON [(7, StartTimedServiceJob 10 jobDur5)] 99).1 = none ∧
    (GetLongRunningResultsAsJSON [(7, StartTimedServiceJob 10 jobDur5)] 99).2 =
      ["Failed to get job data for " ++ toString (99 : Nat)] :=
  ⟨rfl, rfl, rfl, rfl, rfl⟩
